import Mathlib

/-!
Verification of the Lendora off-chain negotiation core
(`src/hydra/head_manager.py`) against its natural-language specification.

The Python module is shallowly embedded: Python floats are modelled as
exact rationals (`ℚ`), Python ints as `ℤ`/`ℕ`, dictionaries as functions
into `Option`, raised exceptions as `Except` errors, and in-place object
mutation as explicit state passing.  Since a Python exception does not
roll back mutations performed before the `raise`, every stateful
operation returns its (possibly mutated) state alongside the
`Except`-wrapped result.  Wall-clock reads (`time.time()`) are modelled
by an explicit `now` parameter threaded into each call.

Event dispatch (`_emit_event`) is observable only through the handlers
it invokes; the model records the dispatched events in an append-only
trace field `emitted` of the client state, so the trace is exactly the
sequence a subscribed handler would observe.

Fields of the Python objects that no claim (and no modelled code path)
reads — the UTxO set cache, the `parties` / `status` / `message` fields
of mock responses, the pending-response future table — are omitted; the
CBOR transaction payload built by `submit_counter_offer` is kept as an
opaque string since nothing inspects it.
-/

namespace Lendora

/-- HeadState enum of `head_manager.py` (lines 55-62): the Hydra head
lifecycle states Idle, Initializing, Open, Closed, FanoutPossible, Final. -/
inductive HeadState where
  | IDLE
  | INITIALIZING
  | OPEN
  | CLOSED
  | FANOUT_POSSIBLE
  | FINAL
deriving DecidableEq, Repr

/-- ConnectionMode enum (lines 65-69).  Its only members are REAL,
DIRECT and AUTO; in particular there is no member named `MOCK`, which
matters for `connect` below. -/
inductive ConnectionMode where
  | REAL
  | DIRECT
  | AUTO
deriving DecidableEq, Repr

/-- Errors raised by the modelled code paths, one constructor per
distinct Python exception:
* `notConnected` — `ConnectionError("Not connected to Hydra node")`
  raised by `_send_command` (line 318); the spec's `NotConnectedError`.
* `sessionNotFound` — `ValueError(f"No active negotiation with head_id: {id}")`
  raised by `submit_counter_offer` (line 612) and `accept_and_settle`
  (line 665); the spec's `SessionNotFoundError`.  The constructor carries
  the offending head id, the datum interpolated into the message.
* `attributeError` — Python `AttributeError`, raised when an attribute
  lookup fails; carries the missing attribute name.  `connect` (line 188)
  evaluates `ConnectionMode.MOCK`, a member the enum does not declare,
  so this exception escapes `connect` whenever that line is reached. -/
inductive HydraError where
  | notConnected
  | sessionNotFound (head_id : String)
  | attributeError (name : String)
deriving DecidableEq, Repr

/-- An event dispatched to subscribed handlers by `_emit_event`
(lines 299-306): the event tag and the `headId` field of its payload
(the only payload field any modelled event carries). -/
structure Event where
  tag : String
  headId : Option String
deriving DecidableEq, Repr

/-- The response dictionary returned by `_send_command`: its `tag` field
and its optional `headId` field (the only fields the callers in scope
read; `open_negotiation` reads `headId` with a fallback).  For a real
(non-mock) send the Python dict is `{"status": "sent", "command": tag}`,
which has no `tag`/`headId` keys; it is modelled with tag `"sent"` and
no head id. -/
structure Response where
  tag : String
  headId : Option String
deriving DecidableEq, Repr

/-- The mutable state of a `HydraClient` (lines 159-170) restricted to
the fields the modelled methods read or write: `_mock_mode`,
`_connected`, `state`, `head_id`; plus `emitted`, the trace of events
dispatched via `_emit_event` (what subscribed handlers observe, in
order). -/
structure ClientState where
  mockMode : Bool
  connected : Bool
  headState : HeadState
  headId : Option String
  emitted : List Event
deriving DecidableEq, Repr

/-- Client state right after `HydraClient.__init__` (lines 159-170):
not connected, not in mock mode, head state Idle, no head id, and no
events dispatched yet. -/
def initClient : ClientState :=
  { mockMode := false, connected := false, headState := .IDLE,
    headId := none, emitted := [] }

/-- The commands a caller can issue, with the payload fields the model
keeps: `Init` carries the contestation period, `NewTx` the opaque
CBOR-hex string, `Commit`'s UTxO list is dropped (the negotiation
manager only ever commits `[]`). -/
inductive Command where
  | init (contestationPeriod : ℤ)
  | commit
  | newTx (transaction : String)
  | close
  | fanout
  | getUTxO
deriving DecidableEq, Repr

/-- Appends one event to the dispatch trace: `_emit_event` (lines
299-306) invokes every subscribed handler on the event, in order, so
the observable effect is the event joining the trace. -/
def emit_event (c : ClientState) (e : Event) : ClientState :=
  { c with emitted := c.emitted ++ [e] }

/-- Direct ("mock") mode responses, `HydraClient._mock_response`
(lines 436-506).  Builds the canned response for the command, then
updates the client state: on `Init` it sets the state to Initializing,
stores the fresh head id `"mock_head_" ++ timestamp`, then (after the
simulated delay) sets the state to Open and dispatches a `HeadIsOpen`
event carrying that head id — note that no `HeadIsInitializing` event
is dispatched, the `HeadIsInitializing` tag occurs only in the returned
response; on `Close` it sets the state to Closed; on `Fanout` to Final;
`Commit`, `NewTx` and `GetUTxO` leave the state untouched and dispatch
nothing. -/
def mock_response (cmd : Command) (c : ClientState) (now : ℤ) :
    Response × ClientState :=
  let freshId := "mock_head_" ++ toString now
  match cmd with
  | .init _ =>
      let response : Response := ⟨"HeadIsInitializing", some freshId⟩
      let c := { c with headState := .INITIALIZING, headId := some freshId }
      let c := { c with headState := .OPEN }
      let c := emit_event c ⟨"HeadIsOpen", c.headId⟩
      (response, c)
  | .commit => (⟨"Committed", none⟩, c)
  | .newTx _ => (⟨"TxValid", some (c.headId.getD freshId)⟩, c)
  | .close =>
      (⟨"HeadIsClosed", some (c.headId.getD freshId)⟩,
       { c with headState := .CLOSED })
  | .fanout =>
      (⟨"HeadIsFinalized", some (c.headId.getD freshId)⟩,
       { c with headState := .FINAL })
  | .getUTxO => (⟨"GetUTxOResponse", none⟩, c)

/-- Command dispatch, `HydraClient._send_command` (lines 312-325): in
mock mode delegate to `_mock_response`; otherwise, if not connected,
raise `ConnectionError("Not connected to Hydra node")` without touching
any state; otherwise send the frame on the socket and return the
`{"status": "sent"}` acknowledgement, again without touching client
state (real state changes only ever come from received events). -/
def send_command (cmd : Command) (c : ClientState) (now : ℤ) :
    Except HydraError Response × ClientState :=
  if c.mockMode then
    let (r, c') := mock_response cmd c now
    (.ok r, c')
  else if c.connected then
    (.ok ⟨"sent", none⟩, c)
  else
    (.error .notConnected, c)

/-- The event→state table of `HydraClient._handle_message`
(lines 269-275). -/
def state_updates (tag : String) : Option HeadState :=
  if tag = "HeadIsInitializing" then some .INITIALIZING
  else if tag = "HeadIsOpen" then some .OPEN
  else if tag = "HeadIsClosed" then some .CLOSED
  else if tag = "ReadyToFanout" then some .FANOUT_POSSIBLE
  else if tag = "HeadIsFinalized" then some .FINAL
  else none

/-- Processing of one inbound frame from a real node,
`HydraClient._handle_message` (lines 263-287): update the head state if
the tag is a lifecycle event, record the head id when a `HeadIsOpen`
frame carries one, then dispatch the event to handlers. -/
def handle_message (c : ClientState) (tag : String) (headId : Option String) :
    ClientState :=
  let c :=
    match state_updates tag with
    | some st =>
        { c with headState := st,
                 headId := if tag = "HeadIsOpen" ∧ headId.isSome
                           then headId else c.headId }
    | none => c
  emit_event c ⟨tag, headId⟩

/-- Connection attempt, `HydraClient.connect` (lines 176-233).  If the
`websockets` package is not importable the client silently enters mock
mode and returns `False` (lines 183-186).  Otherwise execution reaches
line 188, `if self.config.mode == ConnectionMode.MOCK:`, and evaluating
`ConnectionMode.MOCK` raises `AttributeError` because the enum (lines
65-69) declares only REAL, DIRECT and AUTO.  Every path with
`websockets` importable passes through line 188 before any
mode-specific branch, so the retry loop (lines 193-225), the AUTO
fallback (lines 228-231) and the `ConnectionError` raise (line 233) are
all unreachable, whatever the configured mode; they are therefore dead
code and the model ends at the raise.  The Boolean in the result is the
Python return value. -/
def connect (mode : ConnectionMode) (websocketsAvailable : Bool)
    (c : ClientState) : Except HydraError (Bool × ClientState) :=
  if websocketsAvailable = false then
    .ok (false, { c with mockMode := true })
  else
    .error (.attributeError "MOCK")

/-- One entry of `NegotiationState.messages` (appended at lines
637-642): the Python dict `{"round": r, "from": p, "rate": q,
"timestamp": t}`.  The `"from"` key is named `from_party` here because
`from` is reserved in Lean. -/
structure Message where
  round : ℕ
  from_party : String
  rate : ℚ
  timestamp : ℤ
deriving DecidableEq, Repr

/-- NegotiationState dataclass (lines 114-126): the per-session record
tracked by the manager.  `messages` is the ordered list of round
records. -/
structure NegotiationState where
  head_id : String
  borrower : String
  lender : String
  original_rate : ℚ
  current_rate : ℚ
  principal : ℚ
  term_months : ℤ
  rounds : ℕ
  created_at : ℤ
  messages : List Message
deriving DecidableEq, Repr

/-- Settlement dataclass (lines 129-139): the immutable record produced
by `accept_and_settle`.  `final_rate_bps` is the basis-points field the
source comments as "Basis points for Aiken". -/
structure Settlement where
  tx_hash : String
  borrower : String
  lender : String
  principal : ℚ
  final_rate : ℚ
  final_rate_bps : ℤ
  term_months : ℤ
  status : String
deriving DecidableEq, Repr

/-- The success dictionary returned by `submit_counter_offer`
(lines 646-652), restricted to its variable fields `round`, `old_rate`
and `new_rate` (`success` and `message` are constants). -/
structure RoundResult where
  round : ℕ
  old_rate : ℚ
  new_rate : ℚ
deriving DecidableEq, Repr

/-- Python's `int()` applied to a rational: truncation toward zero.
`int(state.current_rate * 100)` at line 690 is this operation (Python's
`int()` on a float drops the fractional part toward zero; it does not
round to nearest). -/
def pyInt (q : ℚ) : ℤ := Int.tdiv q.num (q.den : ℤ)

/-- The live session table `active_negotiations` (line 527): a Python
dict keyed by head id, modelled as a function into `Option`. -/
def SessionTable : Type := String → Option NegotiationState

/-- Dictionary lookup: `self.active_negotiations[head_id]` (membership
tested with `in` first). -/
def lookupSession (t : SessionTable) (k : String) : Option NegotiationState :=
  t k

/-- Dictionary write `self.active_negotiations[head_id] = state`; also
covers the in-place mutation of a stored session object, which in
Python is visible through the dict. -/
def setSession (t : SessionTable) (k : String) (v : NegotiationState) :
    SessionTable :=
  fun k' => if k' = k then some v else t k'

/-- Dictionary deletion `del self.active_negotiations[head_id]`
(line 696). -/
def removeSession (t : SessionTable) (k : String) : SessionTable :=
  fun k' => if k' = k then none else t k'

/-- The mutable state of a `HydraNegotiationManager` (lines 524-527):
its client and its live session table. -/
structure ManagerState where
  client : ClientState
  active : SessionTable

/-- `HydraNegotiationManager.open_negotiation` (lines 542-592): send
`Init` through the client, take the head id from the response's
`headId` field with fallback `"head_" ++ timestamp` (the real-mode
acknowledgement has no such field), sleep briefly, send `Commit` with
an empty UTxO list, then build a fresh `NegotiationState` — rounds 0,
empty message list, `current_rate = original_rate = interest_rate` —
and register it in the live table under the head id.  A raise from
either send propagates and no session is registered.  No validation of
`principal`, `interest_rate` or `term_months` is performed, and nothing
inspects the channel state between the two sends. -/
def open_negotiation (m : ManagerState) (borrower lender : String)
    (principal interest_rate : ℚ) (term_months : ℤ) (now : ℤ) :
    Except HydraError NegotiationState × ManagerState :=
  match send_command (.init 60) m.client now with
  | (.error e, c1) => (.error e, { m with client := c1 })
  | (.ok r, c1) =>
    let head_id := r.headId.getD ("head_" ++ toString now)
    match send_command .commit c1 now with
    | (.error e, c2) => (.error e, { m with client := c2 })
    | (.ok _, c2) =>
      let s : NegotiationState :=
        { head_id := head_id, borrower := borrower, lender := lender,
          original_rate := interest_rate, current_rate := interest_rate,
          principal := principal, term_months := term_months,
          rounds := 0, created_at := now, messages := [] }
      (.ok s, { client := c2, active := setSession m.active head_id s })

/-- `HydraNegotiationManager.submit_counter_offer` (lines 594-652).
Raises `ValueError` if the head id is not in the live table.  Otherwise
it first increments the session's round counter in place (line 615),
then submits the opaque CBOR payload via `new_tx`; if that send raises
(client disconnected and not in mock mode) the exception propagates
with the increment already applied — Python does not roll it back.  On
success it records the old rate, overwrites `current_rate` with the
proposed rate unconditionally, appends the round record, and returns
`{round, old_rate, new_rate}`. -/
def submit_counter_offer (m : ManagerState) (head_id : String)
    (proposed_rate : ℚ) (from_party : String) (now : ℤ) :
    Except HydraError RoundResult × ManagerState :=
  match lookupSession m.active head_id with
  | none => (.error (.sessionNotFound head_id), m)
  | some state =>
    let state := { state with rounds := state.rounds + 1 }
    let m1 : ManagerState :=
      { m with active := setSession m.active head_id state }
    match send_command (.newTx "mock_cbor") m1.client now with
    | (.error e, c) => (.error e, { m1 with client := c })
    | (.ok _, c) =>
      let old_rate := state.current_rate
      let state := { state with
        current_rate := proposed_rate,
        messages := state.messages ++
          [⟨state.rounds, from_party, proposed_rate, now⟩] }
      (.ok ⟨state.rounds, old_rate, proposed_rate⟩,
       { client := c, active := setSession m1.active head_id state })

/-- `HydraNegotiationManager.accept_and_settle` (lines 654-700).
Raises `ValueError` if the head id is not in the live table.  Otherwise
sends `Close`, then `Fanout` (a raise from either propagates, leaving
the table untouched since the deletion comes last), builds the
Settlement — `final_rate` is the session's `current_rate` at the time
of the call and `final_rate_bps = int(current_rate * 100)` — and only
then deletes the session from the table.  Nothing between the sends
inspects the channel state: the deletion is unconditional once both
sends return. -/
def accept_and_settle (m : ManagerState) (head_id : String) (now : ℤ) :
    Except HydraError Settlement × ManagerState :=
  match lookupSession m.active head_id with
  | none => (.error (.sessionNotFound head_id), m)
  | some state =>
    match send_command .close m.client now with
    | (.error e, c) => (.error e, { m with client := c })
    | (.ok _, c1) =>
      match send_command .fanout c1 now with
      | (.error e, c2) => (.error e, { m with client := c2 })
      | (.ok _, c2) =>
        let settlement : Settlement :=
          { tx_hash := "tx_" ++ head_id ++ "_" ++ toString now,
            borrower := state.borrower, lender := state.lender,
            principal := state.principal,
            final_rate := state.current_rate,
            final_rate_bps := pyInt (state.current_rate * 100),
            term_months := state.term_months, status := "SETTLED" }
        (.ok settlement,
         { client := c2, active := removeSession m.active head_id })

/-- One element of a counter-offer call sequence: the proposed rate,
the offering party, and the clock value at the call. -/
structure Offer where
  rate : ℚ
  from_party : String
  now : ℤ
deriving DecidableEq, Repr

/-- Runs a sequence of `submit_counter_offer` calls on one session,
keeping the manager state of each call whether it succeeded or raised
(a raise in Python leaves the mutations already performed in place). -/
def submitSeq (m : ManagerState) (head_id : String) :
    List Offer → ManagerState
  | [] => m
  | o :: rest =>
      submitSeq (submit_counter_offer m head_id o.rate o.from_party o.now).2
        head_id rest

/-- The rate of the last offer in the list, or the default if the list
is empty. -/
def lastRateD : List Offer → ℚ → ℚ
  | [], d => d
  | o :: rest, _ => lastRateD rest o.rate

/-- The round records a successful run of a list of offers appends to a
session whose round counter starts at `r0`: record k carries round
number `r0 + k` (1-based). -/
def offerRecords (r0 : ℕ) : List Offer → List Message
  | [] => []
  | o :: rest => ⟨r0 + 1, o.from_party, o.rate, o.now⟩ :: offerRecords (r0 + 1) rest

/-- The session produced by a successful run of a list of counter-offers,
written in the step-by-step shape of `submit_counter_offer`'s state
update (round counter up by one, current rate overwritten, record
appended, per offer). -/
def applyOffers (s : NegotiationState) : List Offer → NegotiationState
  | [] => s
  | o :: rest => applyOffers
      { s with rounds := s.rounds + 1
               current_rate := o.rate
               messages := s.messages ++
                 [⟨s.rounds + 1, o.from_party, o.rate, o.now⟩] }
      rest

/-! Concrete fixtures used to instantiate the theorems below. -/

/-- A client that fell back to direct ("mock") mode, before any command. -/
def mockClient : ClientState :=
  { mockMode := true, connected := false, headState := .IDLE,
    headId := none, emitted := [] }

/-- A client that is neither connected nor in direct mode (e.g. after the
transport dropped). -/
def realDisconnectedClient : ClientState :=
  { mockMode := false, connected := false, headState := .IDLE,
    headId := none, emitted := [] }

/-- A connected real-transport client that has not yet observed any
lifecycle event (head state still Idle). -/
def connectedIdleClient : ClientState :=
  { mockMode := false, connected := true, headState := .IDLE,
    headId := none, emitted := [] }

/-- A connected real-transport client whose head has been observed Open. -/
def connectedOpenClient : ClientState :=
  { mockMode := false, connected := true, headState := .OPEN,
    headId := some "h1", emitted := [] }

/-- The empty live-session table. -/
def emptyTable : SessionTable := fun _ => none

/-- A fresh direct-mode manager with no live sessions. -/
def mockManager : ManagerState := ⟨mockClient, emptyTable⟩

/-- A live session fixture: opened at rate 8.5 with no rounds yet. -/
def sessionH1 : NegotiationState :=
  { head_id := "h1", borrower := "alice", lender := "bob",
    original_rate := 17/2, current_rate := 17/2, principal := 1000,
    term_months := 12, rounds := 0, created_at := 0, messages := [] }

/-- The manager obtained by opening one direct-mode negotiation at rate
7.255 % (the rational 1451/200) at clock 0. -/
def mgrC3 : ManagerState :=
  (open_negotiation mockManager "alice" "bob" 1000 (1451/200) 12 0).2

/-- The session `mgrC3` holds: the exact record `open_negotiation`
registers under the fresh head id. -/
def sessC3 : NegotiationState :=
  { head_id := "mock_head_0", borrower := "alice", lender := "bob",
    original_rate := 1451/200, current_rate := 1451/200, principal := 1000,
    term_months := 12, rounds := 0, created_at := 0, messages := [] }

/-! Theorems. -/

/-- Claim C5 (code bug): `connect` is claimed to obey the
connection-mode invariant (RealOnly surfaces `ConnectionError`, Auto
falls back, DirectOnly returns direct mode immediately), but whenever
the websockets package is importable, every call — in every mode —
raises `AttributeError` at line 188 while evaluating
`ConnectionMode.MOCK`, a member the enum does not declare, before any
mode-specific branch is reached. -/
theorem C5_connect_raises_attribute_error (c : ClientState) :
    connect .DIRECT true c = .error (.attributeError "MOCK") ∧
    connect .REAL true c = .error (.attributeError "MOCK") ∧
    connect .AUTO true c = .error (.attributeError "MOCK") :=
  ⟨rfl, rfl, rfl⟩

/-- Claim C4, counterexample: in direct mode the `Init` command does
not give subscribed handlers the sequence HeadIsInitializing then
HeadIsOpen.  On a fresh direct-mode client the dispatch trace after
`Init` is exactly `[HeadIsOpen]` — no `HeadIsInitializing` event is
dispatched — whereas processing the two real-protocol frames through
`_handle_message` dispatches both, so the direct-mode handler-visible
sequence differs from the real-protocol one. -/
theorem C4_counterexample :
    (send_command (.init 60) mockClient 0).2.emitted =
      [⟨"HeadIsOpen", some "mock_head_0"⟩] ∧
    "HeadIsInitializing" ∉
      ((send_command (.init 60) mockClient 0).2.emitted.map Event.tag) ∧
    ((handle_message (handle_message initClient "HeadIsInitializing" none)
        "HeadIsOpen" (some "h1")).emitted.map Event.tag) =
      ["HeadIsInitializing", "HeadIsOpen"] := by
  refine ⟨rfl, ?_, rfl⟩
  decide

/-- Claim C4, amended: in direct mode the `Init` command returns a
response tagged `HeadIsInitializing` carrying the freshly generated
channel id `"mock_head_" ++ timestamp` and, after the simulated delay,
sets the head state to Open and dispatches a single `HeadIsOpen` event
with that id to subscribed handlers; handlers do not observe a
`HeadIsInitializing` event, so the synthesized handler-visible sequence
is shorter than the real-protocol one. -/
theorem C4_amended_direct_init (c : ClientState) (cp now : ℤ)
    (hmock : c.mockMode = true) :
    send_command (.init cp) c now =
      (.ok ⟨"HeadIsInitializing", some ("mock_head_" ++ toString now)⟩,
       { c with headState := .OPEN,
                headId := some ("mock_head_" ++ toString now),
                emitted := c.emitted ++
                  [⟨"HeadIsOpen", some ("mock_head_" ++ toString now)⟩] }) := by
  simp [send_command, hmock, mock_response, emit_event]

/-- Witness for C4's amended theorem at a concrete input: a fresh
direct-mode client, contestation period 60, clock 0. -/
theorem C4_amended_direct_init_witness :
    mockClient.mockMode = true ∧
    send_command (.init 60) mockClient 0 =
      (.ok ⟨"HeadIsInitializing", some ("mock_head_" ++ toString (0:ℤ))⟩,
       { mockClient with headState := .OPEN,
                         headId := some ("mock_head_" ++ toString (0:ℤ)),
                         emitted := mockClient.emitted ++
                           [⟨"HeadIsOpen", some ("mock_head_" ++ toString (0:ℤ))⟩] }) :=
  ⟨rfl, C4_amended_direct_init mockClient 60 0 rfl⟩

/-- Claim C6, counterexample: `new_tx` is not rejected outside the
`Open` state.  On a direct-mode client whose head state is `Idle` the
command succeeds and returns a `TxValid`-tagged response, and on a
connected real-transport client in `Idle` it succeeds with the `sent`
acknowledgement; in neither case is any error raised (the code contains
no state check), though the channel state is indeed left unchanged. -/
theorem C6_counterexample :
    mockClient.headState = .IDLE ∧
    send_command (.newTx "00") mockClient 0 =
      (.ok ⟨"TxValid", some "mock_head_0"⟩, mockClient) ∧
    connectedIdleClient.headState = .IDLE ∧
    send_command (.newTx "00") connectedIdleClient 0 =
      (.ok ⟨"sent", none⟩, connectedIdleClient) :=
  ⟨rfl, rfl, rfl, rfl⟩

/-- Claim C6, amended: `new_tx` performs no channel-state check: in
every channel state it succeeds whenever the client is in direct mode
or connected (returning a `TxValid`-tagged response in direct mode),
and it never mutates the client state; no `InvalidStateError` exists in
the code. -/
theorem C6_amended_no_state_check (c : ClientState) (tx : String) (now : ℤ)
    (h : c.mockMode = true ∨ c.connected = true) :
    ∃ resp, send_command (.newTx tx) c now = (.ok resp, c) ∧
      (c.mockMode = true → resp.tag = "TxValid") := by
  by_cases hm : c.mockMode = true
  · exact ⟨⟨"TxValid", some (c.headId.getD ("mock_head_" ++ toString now))⟩,
      by simp [send_command, hm, mock_response], fun _ => rfl⟩
  · have hmf : c.mockMode = false := Bool.eq_false_iff.mpr hm
    have hc : c.connected = true := h.resolve_left hm
    exact ⟨⟨"sent", none⟩, by simp [send_command, hmf, hc],
      fun hcc => absurd hcc hm⟩

/-- Witness for C6's amended theorem at a concrete input: a direct-mode
client in state `Idle`. -/
theorem C6_amended_no_state_check_witness :
    (mockClient.mockMode = true ∨ mockClient.connected = true) ∧
    ∃ resp, send_command (.newTx "00") mockClient 0 = (.ok resp, mockClient) ∧
      (mockClient.mockMode = true → resp.tag = "TxValid") :=
  ⟨Or.inl rfl, C6_amended_no_state_check mockClient "00" 0 (Or.inl rfl)⟩

/-- Helper: with a connected real-transport client, both sends of
`open_negotiation` return the plain `sent` acknowledgement without
touching client state, so the call registers a fresh zero-round session
under the fallback id `"head_" ++ timestamp` and returns it. -/
theorem open_negotiation_real (m : ManagerState) (b l : String)
    (principal rate : ℚ) (term now : ℤ)
    (hreal : m.client.mockMode = false) (hconn : m.client.connected = true) :
    open_negotiation m b l principal rate term now =
      (.ok { head_id := "head_" ++ toString now, borrower := b, lender := l,
             original_rate := rate, current_rate := rate,
             principal := principal, term_months := term,
             rounds := 0, created_at := now, messages := [] },
       { client := m.client,
         active := setSession m.active ("head_" ++ toString now)
           { head_id := "head_" ++ toString now, borrower := b, lender := l,
             original_rate := rate, current_rate := rate,
             principal := principal, term_months := term,
             rounds := 0, created_at := now, messages := [] } }) := by
  simp [open_negotiation, send_command, hreal, hconn]

/-- Claim C7, counterexample: `open_negotiation` does not wait for the
`Open` transition and never raises a timeout error.  On a connected
real-transport client whose head state is `Idle` — and stays `Idle`,
since real-mode sends change no state — the call succeeds, registering
a session under the fallback id `"head_7"`, even though the channel was
never observed `Open`. -/
theorem C7_counterexample :
    ∃ s m', open_negotiation ⟨connectedIdleClient, emptyTable⟩
        "alice" "bob" 1000 (17/2) 12 7 = (.ok s, m') ∧
      m'.client.headState = .IDLE ∧
      s.head_id = "head_7" := by
  exact ⟨_, _, rfl, rfl, rfl⟩

/-- Claim C7, amended: `open_negotiation` performs a fixed unconditional
delay instead of waiting for the `Open` transition: with a connected
real-transport client it succeeds regardless of the channel state,
leaves the channel state exactly as it found it, and registers the
session under the fallback id `"head_" ++ timestamp`; no
`ChannelOpenTimeoutError` (or any timeout error) exists in the code. -/
theorem C7_amended_no_wait (m : ManagerState) (b l : String)
    (principal rate : ℚ) (term now : ℤ)
    (hreal : m.client.mockMode = false) (hconn : m.client.connected = true) :
    ∃ s m', open_negotiation m b l principal rate term now = (.ok s, m') ∧
      m'.client.headState = m.client.headState ∧
      s.head_id = "head_" ++ toString now :=
  ⟨_, _, open_negotiation_real m b l principal rate term now hreal hconn,
   rfl, rfl⟩

/-- Witness for C7's amended theorem at a concrete input: a connected
client in state `Idle`, clock 7. -/
theorem C7_amended_no_wait_witness :
    connectedIdleClient.mockMode = false ∧ connectedIdleClient.connected = true ∧
    ∃ s m', open_negotiation ⟨connectedIdleClient, emptyTable⟩
        "alice" "bob" 1000 8 12 7 = (.ok s, m') ∧
      m'.client.headState = connectedIdleClient.headState ∧
      s.head_id = "head_" ++ toString (7:ℤ) :=
  ⟨rfl, rfl, C7_amended_no_wait ⟨connectedIdleClient, emptyTable⟩
    "alice" "bob" 1000 8 12 7 rfl rfl⟩

/-- Claim C9, counterexample: a `submit_counter_offer` whose underlying
send fails with the not-connected error does not leave the session's
round counter unchanged.  On a disconnected, non-direct-mode client the
call raises, the round records and current rate are untouched, but the
round counter has already been incremented from 0 to 1. -/
theorem C9_counterexample :
    ∃ m', submit_counter_offer
        ⟨realDisconnectedClient, setSession emptyTable "h1" sessionH1⟩
        "h1" (15/2) "alice" 3 = (.error .notConnected, m') ∧
      ∃ s', lookupSession m'.active "h1" = some s' ∧
        s'.rounds = 1 ∧ sessionH1.rounds = 0 ∧
        s'.current_rate = sessionH1.current_rate ∧
        s'.messages = sessionH1.messages := by
  exact ⟨_, rfl, _, rfl, rfl, rfl, rfl, rfl⟩

/-- Claim C9, amended: every command issued while the client is
disconnected and not in direct mode fails immediately with the
not-connected error and leaves the client state untouched; a
`submit_counter_offer` failing this way leaves `current_rate` and the
round-record list unchanged and touches no other session, but its round
counter has already been incremented before the send and keeps the
incremented value. -/
theorem C9_amended_round_counter_mutated (cmd : Command) (c : ClientState)
    (m : ManagerState) (hid : String) (s : NegotiationState)
    (rate : ℚ) (p : String) (now : ℤ)
    (hc1 : c.mockMode = false) (hc2 : c.connected = false)
    (hm1 : m.client.mockMode = false) (hm2 : m.client.connected = false)
    (hfound : lookupSession m.active hid = some s) :
    send_command cmd c now = (.error .notConnected, c) ∧
    ∃ m', submit_counter_offer m hid rate p now = (.error .notConnected, m') ∧
      m'.client = m.client ∧
      lookupSession m'.active hid = some { s with rounds := s.rounds + 1 } ∧
      ∀ k, k ≠ hid → lookupSession m'.active k = lookupSession m.active k := by
  have hf : m.active hid = some s := hfound
  constructor
  · simp [send_command, hc1, hc2]
  · refine ⟨{ client := m.client,
              active := setSession m.active hid { s with rounds := s.rounds + 1 } },
            ?_, rfl, ?_, ?_⟩
    · simp [submit_counter_offer, lookupSession, hf, send_command, hm1, hm2]
    · simp [lookupSession, setSession]
    · intro k hk
      simp [lookupSession, setSession, hk]

/-- Witness for C9's amended theorem at a concrete input: a
disconnected client and a live zero-round session. -/
theorem C9_amended_round_counter_mutated_witness :
    realDisconnectedClient.mockMode = false ∧
    realDisconnectedClient.connected = false ∧
    lookupSession (setSession emptyTable "h1" sessionH1) "h1" = some sessionH1 ∧
    (send_command .close realDisconnectedClient 3 =
      (.error .notConnected, realDisconnectedClient) ∧
    ∃ m', submit_counter_offer
        ⟨realDisconnectedClient, setSession emptyTable "h1" sessionH1⟩
        "h1" 7 "alice" 3 = (.error .notConnected, m') ∧
      m'.client = realDisconnectedClient ∧
      lookupSession m'.active "h1" = some { sessionH1 with rounds := sessionH1.rounds + 1 } ∧
      ∀ k, k ≠ "h1" →
        lookupSession m'.active k =
          lookupSession (setSession emptyTable "h1" sessionH1) k) :=
  ⟨rfl, rfl, rfl,
   C9_amended_round_counter_mutated .close realDisconnectedClient
     ⟨realDisconnectedClient, setSession emptyTable "h1" sessionH1⟩
     "h1" sessionH1 7 "alice" 3 rfl rfl rfl rfl rfl⟩

/-- Helper: `accept_and_settle` on a live session of a direct-mode
client succeeds: close and fanout drive the mock head state to Final,
the Settlement takes the session's `current_rate` as `final_rate` and
truncates `current_rate * 100` into the basis-points field, and the
session is deleted from the live table. -/
theorem accept_and_settle_mock (m : ManagerState) (hid : String)
    (s : NegotiationState) (now : ℤ)
    (hmock : m.client.mockMode = true)
    (hfound : lookupSession m.active hid = some s) :
    accept_and_settle m hid now =
      (.ok { tx_hash := "tx_" ++ hid ++ "_" ++ toString now,
             borrower := s.borrower, lender := s.lender,
             principal := s.principal, final_rate := s.current_rate,
             final_rate_bps := pyInt (s.current_rate * 100),
             term_months := s.term_months, status := "SETTLED" },
       { client := { m.client with headState := .FINAL },
         active := removeSession m.active hid }) := by
  have hf : m.active hid = some s := hfound
  simp [accept_and_settle, lookupSession, hf, send_command, hmock, mock_response]

/-- Helper: `accept_and_settle` on an id absent from the live table
raises the session-not-found error and changes nothing. -/
theorem accept_and_settle_not_found (m : ManagerState) (hid : String) (now : ℤ)
    (h : lookupSession m.active hid = none) :
    accept_and_settle m hid now = (.error (.sessionNotFound hid), m) := by
  have hf : m.active hid = none := h
  simp [accept_and_settle, lookupSession, hf]

/-- Helper: `accept_and_settle` with a disconnected, non-direct-mode
client fails at the close send with the not-connected error, leaving
the manager — in particular the live table — untouched. -/
theorem accept_and_settle_not_connected (m : ManagerState) (hid : String)
    (s : NegotiationState) (now : ℤ)
    (hm1 : m.client.mockMode = false) (hm2 : m.client.connected = false)
    (hfound : lookupSession m.active hid = some s) :
    accept_and_settle m hid now = (.error .notConnected, m) := by
  have hf : m.active hid = some s := hfound
  simp [accept_and_settle, lookupSession, hf, send_command, hm1, hm2]

/-- Claim C2 (confirmed): `accept_and_settle` is terminal.  Called once
on a live session id of a direct-mode manager it returns a Settlement
and removes the session from the live table; called again on the same
id — or on any id the table does not hold — it fails with the
session-not-found error (the source's `ValueError`, the spec's
`SessionNotFoundError`) and changes nothing. -/
theorem C2_settle_terminal (m : ManagerState) (hid : String)
    (s : NegotiationState) (now now2 : ℤ)
    (hmock : m.client.mockMode = true)
    (hfound : lookupSession m.active hid = some s) :
    ∃ stl m1, accept_and_settle m hid now = (.ok stl, m1) ∧
      lookupSession m1.active hid = none ∧
      accept_and_settle m1 hid now2 = (.error (.sessionNotFound hid), m1) ∧
      ∀ k now3, lookupSession m1.active k = none →
        accept_and_settle m1 k now3 = (.error (.sessionNotFound k), m1) := by
  refine ⟨_, _, accept_and_settle_mock m hid s now hmock hfound, ?_, ?_, ?_⟩
  · simp [lookupSession, removeSession]
  · exact accept_and_settle_not_found _ hid now2 (by simp [lookupSession, removeSession])
  · exact fun k now3 hk => accept_and_settle_not_found _ k now3 hk

/-- Witness for C2 at a concrete input: a direct-mode manager holding
one live session under `"h1"`, settled at clock 1, retried at clock 2. -/
theorem C2_settle_terminal_witness :
    mockClient.mockMode = true ∧
    lookupSession (setSession emptyTable "h1" sessionH1) "h1" = some sessionH1 ∧
    ∃ stl m1, accept_and_settle ⟨mockClient, setSession emptyTable "h1" sessionH1⟩
        "h1" 1 = (.ok stl, m1) ∧
      lookupSession m1.active "h1" = none ∧
      accept_and_settle m1 "h1" 2 = (.error (.sessionNotFound "h1"), m1) ∧
      ∀ k now3, lookupSession m1.active k = none →
        accept_and_settle m1 k now3 = (.error (.sessionNotFound k), m1) :=
  ⟨rfl, rfl,
   C2_settle_terminal ⟨mockClient, setSession emptyTable "h1" sessionH1⟩
     "h1" sessionH1 1 2 rfl rfl⟩

/-- Claim C3, counterexample: the basis-points field is not
`round(final_rate * 100)`.  Opening a direct-mode negotiation at rate
7.255 % (= 1451/200) and settling it produces a Settlement whose
`final_rate` is 1451/200 and whose basis-points field is 725 — the
truncation of 725.5 — while `round(final_rate * 100) = round(725.5)`
is 726 (under round-half-up and round-half-to-even alike, 726 being
even). -/
theorem C3_counterexample :
    ∃ stl m2, accept_and_settle mgrC3 "mock_head_0" 1 = (.ok stl, m2) ∧
      stl.final_rate = 1451/200 ∧
      stl.final_rate_bps = 725 ∧
      round (stl.final_rate * 100) = 726 ∧
      stl.final_rate_bps ≠ round (stl.final_rate * 100) := by
  have h3 : pyInt ((1451:ℚ)/200 * 100) = 725 := by
    have h : ((1451:ℚ)/200 * 100) = (⟨1451, 2, by norm_num, by decide⟩ : ℚ) := by
      rw [Rat.mk'_eq_divInt, Rat.divInt_eq_div]
      push_cast
      norm_num
    rw [h]
    show Int.tdiv 1451 2 = 725
    decide
  have h4 : round ((1451:ℚ)/200 * 100) = 726 := by
    rw [show ((1451:ℚ)/200 * 100) = 1451/2 by norm_num, round_eq]
    norm_num
  refine ⟨_, _, accept_and_settle_mock mgrC3 "mock_head_0" sessC3 1 rfl rfl,
    rfl, h3, h4, ?_⟩
  show pyInt ((1451:ℚ)/200 * 100) ≠ round ((1451:ℚ)/200 * 100)
  rw [h3, h4]
  decide

/-- Claim C3, amended: for every Settlement produced by
`accept_and_settle`, the basis-points field equals
`int(final_rate * 100)` — truncation toward zero — where `final_rate`
is the session's `current_rate` at the time of the call.  Whenever
`final_rate * 100` is an integer (every rate with at most two decimal
places, e.g. 7.25 → 725) this coincides with `round(final_rate * 100)`;
otherwise it truncates instead of rounding. -/
theorem C3_amended_bps_truncation (m : ManagerState) (hid : String)
    (s : NegotiationState) (now : ℤ)
    (hmock : m.client.mockMode = true)
    (hfound : lookupSession m.active hid = some s) :
    ∃ stl m', accept_and_settle m hid now = (.ok stl, m') ∧
      stl.final_rate = s.current_rate ∧
      stl.final_rate_bps = pyInt (s.current_rate * 100) ∧
      ∀ z : ℤ, s.current_rate * 100 = (z : ℚ) →
        stl.final_rate_bps = z ∧ stl.final_rate_bps = round (s.current_rate * 100) := by
  refine ⟨_, _, accept_and_settle_mock m hid s now hmock hfound, rfl, rfl, ?_⟩
  intro z hz
  constructor
  · show pyInt (s.current_rate * 100) = z
    rw [hz]
    simp [pyInt]
  · show pyInt (s.current_rate * 100) = round (s.current_rate * 100)
    rw [hz]
    simp [pyInt]

/-- Witness for C3's amended theorem at a concrete input: a direct-mode
manager holding a session at rate 8.5 %. -/
theorem C3_amended_bps_truncation_witness :
    mockClient.mockMode = true ∧
    lookupSession (setSession emptyTable "h1" sessionH1) "h1" = some sessionH1 ∧
    ∃ stl m', accept_and_settle ⟨mockClient, setSession emptyTable "h1" sessionH1⟩
        "h1" 9 = (.ok stl, m') ∧
      stl.final_rate = sessionH1.current_rate ∧
      stl.final_rate_bps = pyInt (sessionH1.current_rate * 100) ∧
      ∀ z : ℤ, sessionH1.current_rate * 100 = (z : ℚ) →
        stl.final_rate_bps = z ∧
        stl.final_rate_bps = round (sessionH1.current_rate * 100) :=
  ⟨rfl, rfl,
   C3_amended_bps_truncation ⟨mockClient, setSession emptyTable "h1" sessionH1⟩
     "h1" sessionH1 9 rfl rfl⟩

/-- Claim C8, counterexample: the session is removed from the live
table without the `Final` state being observed.  On a connected
real-transport manager whose head is `Open`, `accept_and_settle`
succeeds — the close and fanout sends are fire-and-forget — and deletes
the session while the channel state is still `Open`, never `Final`; a
caller therefore cannot re-invoke `accept_and_settle` to continue
driving the close sequence. -/
theorem C8_counterexample :
    ∃ stl m', accept_and_settle
        ⟨connectedOpenClient, setSession emptyTable "h1" sessionH1⟩
        "h1" 5 = (.ok stl, m') ∧
      lookupSession m'.active "h1" = none ∧
      m'.client.headState = .OPEN ∧
      m'.client.headState ≠ .FINAL := by
  exact ⟨_, _, rfl, rfl, rfl, by decide⟩

/-- Claim C8, amended: if close (or fanout) fails — for instance the
transport is disconnected and direct mode is off — the session stays in
the live table, so `accept_and_settle` can be re-invoked on the same
id; but removal is not gated on observing `Final`: the session is
deleted as soon as both sends return, which with a direct-mode client
happens with the head at `Final`, while with a connected real-transport
client it happens without any state observation at all. -/
theorem C8_amended_recoverable_until_sends_succeed (m : ManagerState)
    (hid : String) (s : NegotiationState) (now : ℤ)
    (hfound : lookupSession m.active hid = some s) :
    (m.client.mockMode = false → m.client.connected = false →
      accept_and_settle m hid now = (.error .notConnected, m)) ∧
    (m.client.mockMode = true →
      ∃ stl m', accept_and_settle m hid now = (.ok stl, m') ∧
        lookupSession m'.active hid = none ∧
        m'.client.headState = .FINAL) := by
  constructor
  · exact fun hm1 hm2 => accept_and_settle_not_connected m hid s now hm1 hm2 hfound
  · intro hmock
    refine ⟨_, _, accept_and_settle_mock m hid s now hmock hfound, ?_, rfl⟩
    simp [lookupSession, removeSession]

/-- Witness for C8's amended theorem at concrete inputs: the
disconnected branch on a dropped-transport manager, and the direct-mode
branch on a mock manager, each holding the session under `"h1"`. -/
theorem C8_amended_recoverable_until_sends_succeed_witness :
    (lookupSession (setSession emptyTable "h1" sessionH1) "h1" = some sessionH1) ∧
    (realDisconnectedClient.mockMode = false → realDisconnectedClient.connected = false →
      accept_and_settle ⟨realDisconnectedClient, setSession emptyTable "h1" sessionH1⟩
        "h1" 4 = (.error .notConnected,
          ⟨realDisconnectedClient, setSession emptyTable "h1" sessionH1⟩)) ∧
    (mockClient.mockMode = true →
      ∃ stl m', accept_and_settle ⟨mockClient, setSession emptyTable "h1" sessionH1⟩
          "h1" 4 = (.ok stl, m') ∧
        lookupSession m'.active "h1" = none ∧
        m'.client.headState = .FINAL) :=
  ⟨rfl,
   (C8_amended_recoverable_until_sends_succeed
     ⟨realDisconnectedClient, setSession emptyTable "h1" sessionH1⟩
     "h1" sessionH1 4 rfl).1,
   (C8_amended_recoverable_until_sends_succeed
     ⟨mockClient, setSession emptyTable "h1" sessionH1⟩
     "h1" sessionH1 4 rfl).2⟩

/-- Helper: on a direct-mode client, a `submit_counter_offer` on a live
session succeeds: the round counter is incremented (the increment is
written to the table before the send), the current rate is overwritten
with the proposed rate, the round record is appended, the result
reports `{round, old_rate, new_rate}`, and the client is untouched
(`NewTx` has no direct-mode state effect and dispatches no event). -/
theorem submit_counter_offer_mock (m : ManagerState) (hid : String)
    (s : NegotiationState) (rate : ℚ) (p : String) (now : ℤ)
    (hmock : m.client.mockMode = true)
    (hfound : lookupSession m.active hid = some s) :
    submit_counter_offer m hid rate p now =
      (.ok ⟨s.rounds + 1, s.current_rate, rate⟩,
       { client := m.client,
         active := setSession
           (setSession m.active hid { s with rounds := s.rounds + 1 }) hid
           { s with rounds := s.rounds + 1
                    current_rate := rate
                    messages := s.messages ++
                      [⟨s.rounds + 1, p, rate, now⟩] } }) := by
  have hf : m.active hid = some s := hfound
  simp [submit_counter_offer, lookupSession, hf, send_command, hmock, mock_response]

/-- Helper: running a whole list of counter-offers on a live session of
a direct-mode client leaves the client untouched and turns the stored
session into: round counter advanced by the number of offers, current
rate that of the last offer (unchanged if there is none), and the
matching round records appended in order. -/
theorem submitSeq_mock (offers : List Offer) :
    ∀ (m : ManagerState) (hid : String) (s : NegotiationState),
    m.client.mockMode = true →
    lookupSession m.active hid = some s →
    (submitSeq m hid offers).client = m.client ∧
    lookupSession (submitSeq m hid offers).active hid =
      some (applyOffers s offers) := by
  induction offers with
  | nil =>
    intro m hid s hm hf
    exact ⟨rfl, hf⟩
  | cons o rest ih =>
    intro m hid s hm hf
    have hstep := submit_counter_offer_mock m hid s o.rate o.from_party o.now hm hf
    have hseq : submitSeq m hid (o :: rest) =
        submitSeq (submit_counter_offer m hid o.rate o.from_party o.now).2
          hid rest := rfl
    rw [hseq, hstep]
    exact ih _ hid _ hm (by simp [lookupSession, setSession])

/-- Helper: a run of offers advances the round counter by the number of
offers. -/
theorem applyOffers_rounds (offers : List Offer) :
    ∀ s : NegotiationState,
    (applyOffers s offers).rounds = s.rounds + offers.length := by
  induction offers with
  | nil => intro s; simp [applyOffers]
  | cons o rest ih =>
    intro s
    have := ih { s with rounds := s.rounds + 1
                        current_rate := o.rate
                        messages := s.messages ++
                          [⟨s.rounds + 1, o.from_party, o.rate, o.now⟩] }
    rw [show applyOffers s (o :: rest) =
      applyOffers { s with rounds := s.rounds + 1
                           current_rate := o.rate
                           messages := s.messages ++
                             [⟨s.rounds + 1, o.from_party, o.rate, o.now⟩] }
        rest from rfl, this]
    simp
    omega

/-- Helper: a run of offers leaves the current rate at the last offered
rate (or unchanged if there were no offers). -/
theorem applyOffers_current_rate (offers : List Offer) :
    ∀ s : NegotiationState,
    (applyOffers s offers).current_rate = lastRateD offers s.current_rate := by
  induction offers with
  | nil => intro s; rfl
  | cons o rest ih =>
    intro s
    exact ih { s with rounds := s.rounds + 1
                      current_rate := o.rate
                      messages := s.messages ++
                        [⟨s.rounds + 1, o.from_party, o.rate, o.now⟩] }

/-- Helper: a run of offers appends exactly the matching round records,
numbered consecutively from the starting round counter. -/
theorem applyOffers_messages (offers : List Offer) :
    ∀ s : NegotiationState,
    (applyOffers s offers).messages =
      s.messages ++ offerRecords s.rounds offers := by
  induction offers with
  | nil => intro s; simp [applyOffers, offerRecords]
  | cons o rest ih =>
    intro s
    have := ih { s with rounds := s.rounds + 1
                        current_rate := o.rate
                        messages := s.messages ++
                          [⟨s.rounds + 1, o.from_party, o.rate, o.now⟩] }
    rw [show applyOffers s (o :: rest) =
      applyOffers { s with rounds := s.rounds + 1
                           current_rate := o.rate
                           messages := s.messages ++
                             [⟨s.rounds + 1, o.from_party, o.rate, o.now⟩] }
        rest from rfl, this]
    simp [offerRecords, List.append_assoc]

/-- Helper: opening a negotiation on a direct-mode manager succeeds:
the mock `Init` yields the fresh head id, drives the head to Open and
dispatches the `HeadIsOpen` event, and the manager registers a
zero-round session at the requested rate under that id. -/
theorem open_negotiation_mock (m : ManagerState) (b l : String)
    (principal rate : ℚ) (term now : ℤ)
    (hmock : m.client.mockMode = true) :
    open_negotiation m b l principal rate term now =
      (.ok { head_id := "mock_head_" ++ toString now, borrower := b,
             lender := l, original_rate := rate, current_rate := rate,
             principal := principal, term_months := term,
             rounds := 0, created_at := now, messages := [] },
       { client := { m.client with
                     headState := .OPEN
                     headId := some ("mock_head_" ++ toString now)
                     emitted := m.client.emitted ++
                       [⟨"HeadIsOpen", some ("mock_head_" ++ toString now)⟩] },
         active := setSession m.active ("mock_head_" ++ toString now)
           { head_id := "mock_head_" ++ toString now, borrower := b,
             lender := l, original_rate := rate, current_rate := rate,
             principal := principal, term_months := term,
             rounds := 0, created_at := now, messages := [] } }) := by
  simp [open_negotiation, send_command, hmock, mock_response, emit_event]

/-- Claim C1 (confirmed): on a direct-mode manager, `open_negotiation`
with valid arguments returns a session whose `current_rate` equals the
given rate and whose round counter is 0; and after any sequence of N
`submit_counter_offer` calls on that session the stored round counter
equals N and `current_rate` equals the last submitted rate — whatever
its relation to previous rates, since the offers list is arbitrary (an
offer equal to the current rate counts like any other). -/
theorem C1_open_rate_and_round_sequence (m0 : ManagerState)
    (borrower lender : String) (principal rate : ℚ) (term now : ℤ)
    (offers : List Offer)
    (hmock : m0.client.mockMode = true)
    (hprincipal : 0 < principal) (hrate0 : 0 ≤ rate) (hrate1 : rate ≤ 100)
    (hterm : 0 < term) :
    ∃ s m1, open_negotiation m0 borrower lender principal rate term now =
        (.ok s, m1) ∧
      s.current_rate = rate ∧ s.rounds = 0 ∧
      ∃ s', lookupSession (submitSeq m1 s.head_id offers).active s.head_id =
          some s' ∧
        s'.rounds = offers.length ∧
        s'.current_rate = lastRateD offers rate := by
  refine ⟨_, _,
    open_negotiation_mock m0 borrower lender principal rate term now hmock,
    rfl, rfl, ?_⟩
  obtain ⟨-, hlook⟩ := submitSeq_mock offers
    { client := { m0.client with
                  headState := .OPEN
                  headId := some ("mock_head_" ++ toString now)
                  emitted := m0.client.emitted ++
                    [⟨"HeadIsOpen", some ("mock_head_" ++ toString now)⟩] },
      active := setSession m0.active ("mock_head_" ++ toString now)
        { head_id := "mock_head_" ++ toString now, borrower := borrower,
          lender := lender, original_rate := rate, current_rate := rate,
          principal := principal, term_months := term,
          rounds := 0, created_at := now, messages := [] } }
    ("mock_head_" ++ toString now)
    { head_id := "mock_head_" ++ toString now, borrower := borrower,
      lender := lender, original_rate := rate, current_rate := rate,
      principal := principal, term_months := term,
      rounds := 0, created_at := now, messages := [] }
    hmock (by simp [lookupSession, setSession])
  exact ⟨_, hlook, by simp [applyOffers_rounds],
    by simp [applyOffers_current_rate]⟩

/-- Witness for C1 at a concrete input: a fresh direct-mode manager,
principal 1000, rate 8, term 12, and three offers 7, 9, 9 — the third
repeating the then-current rate and still counting as a round. -/
theorem C1_open_rate_and_round_sequence_witness :
    mockManager.client.mockMode = true ∧ (0:ℚ) < 1000 ∧ (0:ℚ) ≤ 8 ∧
    (8:ℚ) ≤ 100 ∧ (0:ℤ) < 12 ∧
    ∃ s m1, open_negotiation mockManager "alice" "bob" 1000 8 12 0 =
        (.ok s, m1) ∧
      s.current_rate = 8 ∧ s.rounds = 0 ∧
      ∃ s', lookupSession
          (submitSeq m1 s.head_id [⟨7, "alice", 1⟩, ⟨9, "bob", 2⟩, ⟨9, "alice", 3⟩]).active
          s.head_id = some s' ∧
        s'.rounds = [⟨7, "alice", 1⟩, ⟨9, "bob", 2⟩, (⟨9, "alice", 3⟩ : Offer)].length ∧
        s'.current_rate = lastRateD [⟨7, "alice", 1⟩, ⟨9, "bob", 2⟩, ⟨9, "alice", 3⟩] 8 :=
  ⟨rfl, by decide, by decide, by decide, by decide,
   C1_open_rate_and_round_sequence mockManager "alice" "bob" 1000 8 12 0
     [⟨7, "alice", 1⟩, ⟨9, "bob", 2⟩, ⟨9, "alice", 3⟩]
     rfl (by decide) (by decide) (by decide) (by decide)⟩

/-- Helper: `offerRecords` produces one record per offer. -/
theorem offerRecords_length (l : List Offer) :
    ∀ r0 : ℕ, (offerRecords r0 l).length = l.length := by
  induction l with
  | nil => intro r0; rfl
  | cons o rest ih => intro r0; simp [offerRecords, ih]

/-- Helper: the records produced by `offerRecords r0` carry the
consecutive round numbers `r0 + 1, r0 + 2, ...`. -/
theorem offerRecords_map_round (l : List Offer) :
    ∀ r0 : ℕ, (offerRecords r0 l).map Message.round =
      List.range' (r0 + 1) l.length := by
  induction l with
  | nil => intro r0; rfl
  | cons o rest ih =>
    intro r0
    simp [offerRecords, List.range', ih (r0 + 1)]

/-- Claim C10 (confirmed): for a session of a direct-mode manager,
after `open_negotiation` and after any number of successfully completed
`submit_counter_offer` calls, the stored round counter equals the
number of entries of the round-record list, and the k-th record (from
1) carries round number k — the records are numbered 1..N in submission
order. -/
theorem C10_round_counter_matches_records (m0 : ManagerState)
    (borrower lender : String) (principal rate : ℚ) (term now : ℤ)
    (offers : List Offer)
    (hmock : m0.client.mockMode = true) :
    ∃ s m1, open_negotiation m0 borrower lender principal rate term now =
        (.ok s, m1) ∧
      s.rounds = s.messages.length ∧
      ∃ s', lookupSession (submitSeq m1 s.head_id offers).active s.head_id =
          some s' ∧
        s'.rounds = s'.messages.length ∧
        s'.messages.map Message.round = List.range' 1 s'.messages.length := by
  refine ⟨_, _,
    open_negotiation_mock m0 borrower lender principal rate term now hmock,
    rfl, ?_⟩
  obtain ⟨-, hlook⟩ := submitSeq_mock offers
    { client := { m0.client with
                  headState := .OPEN
                  headId := some ("mock_head_" ++ toString now)
                  emitted := m0.client.emitted ++
                    [⟨"HeadIsOpen", some ("mock_head_" ++ toString now)⟩] },
      active := setSession m0.active ("mock_head_" ++ toString now)
        { head_id := "mock_head_" ++ toString now, borrower := borrower,
          lender := lender, original_rate := rate, current_rate := rate,
          principal := principal, term_months := term,
          rounds := 0, created_at := now, messages := [] } }
    ("mock_head_" ++ toString now)
    { head_id := "mock_head_" ++ toString now, borrower := borrower,
      lender := lender, original_rate := rate, current_rate := rate,
      principal := principal, term_months := term,
      rounds := 0, created_at := now, messages := [] }
    hmock (by simp [lookupSession, setSession])
  refine ⟨_, hlook, ?_, ?_⟩
  · simp [applyOffers_rounds, applyOffers_messages, offerRecords_length]
  · simp [applyOffers_messages, offerRecords_map_round, offerRecords_length]

/-- Witness for C10 at a concrete input: a fresh direct-mode manager
and two offers. -/
theorem C10_round_counter_matches_records_witness :
    mockManager.client.mockMode = true ∧
    ∃ s m1, open_negotiation mockManager "alice" "bob" 1000 8 12 0 =
        (.ok s, m1) ∧
      s.rounds = s.messages.length ∧
      ∃ s', lookupSession
          (submitSeq m1 s.head_id [⟨7, "alice", 1⟩, ⟨6, "bob", 2⟩]).active
          s.head_id = some s' ∧
        s'.rounds = s'.messages.length ∧
        s'.messages.map Message.round = List.range' 1 s'.messages.length :=
  ⟨rfl,
   C10_round_counter_matches_records mockManager "alice" "bob" 1000 8 12 0
     [⟨7, "alice", 1⟩, ⟨6, "bob", 2⟩] rfl⟩

end Lendora
